import Mathlib

/-!
Verification of the appointEase appointment-booking application.

The development shallowly embeds the parts of the repository that the
specification's claims are about:

* the data model of `src/shared/schema.ts` (customers and appointments,
  with the `insertCustomerSchema` / `insertAppointmentSchema` zod
  validators derived from it);
* the storage layer of `src/server/storage.ts`
  (`DatabaseStorage.getCustomerByContact`, `createCustomer`,
  `createAppointment`, `updateAppointment`), with the database modelled
  as an explicit `Store` value threaded through each operation — each
  storage call commits immediately, as the source performs independent
  awaited statements with no enclosing transaction;
* the public booking route `POST /api/book/:businessId/appointment`
  of `src/server/storage.ts` (`registerRoutes`);
* the client-side booking payload builders: `calculateEndTime` and the
  appointment payload of the public booking page in
  `src/unnamed/part_001`, the inline payload of
  `src/client/src/pages/book.tsx`, and the staff dashboard payload of
  `src/client/src/pages/dashboard.tsx`.

Times are "HH:MM" strings; JavaScript `split(":")` and `Number(...)`
are modelled by structurally recursive functions on character lists
(`Number` is modelled on strings of decimal digits, which is the only
shape the booking flow produces; a non-numeric component, which in
JavaScript would yield NaN, is modelled as `none`).
-/

/-- A persisted customer row (`customers` table of `src/shared/schema.ts`).
`email`, `phone` and `notes` are nullable columns. -/
structure Customer where
  id : Nat
  businessId : Nat
  name : String
  email : Option String
  phone : Option String
  notes : Option String
deriving DecidableEq

/-- A persisted appointment row (`appointments` table of
`src/shared/schema.ts`).  `status` defaults to "pending" at insert time. -/
structure Appointment where
  id : Nat
  businessId : Nat
  customerId : Nat
  serviceId : Nat
  staffId : Nat
  date : String
  startTime : String
  endTime : String
  status : String
  notes : Option String
deriving DecidableEq

/-- The relational store, restricted to the two tables the claims are
about.  `nextCustomerId` and `nextAppointmentId` model the serial
primary-key sequences. -/
structure Store where
  customers : List Customer
  appointments : List Appointment
  nextCustomerId : Nat
  nextAppointmentId : Nat
deriving DecidableEq

/-- JavaScript truthiness of an optional string: `undefined` and the
empty string are falsy (used by `if (email)` / `if (phone)` in
`getCustomerByContact` and by `customerData.email || undefined`). -/
def truthy : Option String → Bool
  | none => false
  | some s => !(s == "")

/-- `DatabaseStorage.getCustomerByContact` (src/server/storage.ts,
lines 211-229): if an email is supplied, look the customer up by
(businessId, email) and return it when found; otherwise, if a phone is
supplied, look the customer up by (businessId, phone); otherwise return
`undefined`.  The SQL `eq(customers.email, email)` comparison never
matches a NULL column, which the `c.email == some e` test reflects. -/
def getCustomerByContact (store : Store) (businessId : Nat)
    (email phone : Option String) : Option Customer :=
  match (if truthy email then
           store.customers.find? (fun c => c.businessId == businessId && c.email == email)
         else none) with
  | some c => some c
  | none =>
      if truthy phone then
        store.customers.find? (fun c => c.businessId == businessId && c.phone == phone)
      else
        none

/-- The raw `customerData` object of a booking request body. -/
structure CustomerData where
  name : Option String
  email : Option String
  phone : Option String
  notes : Option String
deriving DecidableEq

/-- The output of a successful `insertCustomerSchema.parse`. -/
structure InsertCustomer where
  name : String
  email : Option String
  phone : Option String
  notes : Option String
deriving DecidableEq

/-- `insertCustomerSchema` (src/shared/schema.ts, lines 183-187):
`createInsertSchema(customers).omit(id, businessId, createdAt)`.
The not-null `name` column becomes a required plain string field (any
string, the empty string included, is accepted); the nullable `email`,
`phone` and `notes` columns become optional fields. -/
def insertCustomerSchemaParse (d : CustomerData) : Except String InsertCustomer :=
  match d.name with
  | some n => Except.ok { name := n, email := d.email, phone := d.phone, notes := d.notes }
  | none => Except.error "ValidationError: name is required"

/-- `DatabaseStorage.createCustomer` (src/server/storage.ts, lines
231-234): insert the row and return it; the serial id sequence assigns
the id. -/
def createCustomer (store : Store) (businessId : Nat) (c : InsertCustomer) :
    Store × Customer :=
  let newCustomer : Customer :=
    { id := store.nextCustomerId, businessId := businessId, name := c.name,
      email := c.email, phone := c.phone, notes := c.notes }
  ({ store with customers := store.customers ++ [newCustomer],
                nextCustomerId := store.nextCustomerId + 1 },
   newCustomer)

/-- The raw `appointmentData` object of a booking request body. -/
structure AppointmentData where
  customerId : Option Nat
  serviceId : Option Nat
  staffId : Option Nat
  date : Option String
  startTime : Option String
  endTime : Option String
  status : Option String
  notes : Option String
deriving DecidableEq

/-- The output of a successful `insertAppointmentSchema.parse`.
`status` stays optional because the column has a database default. -/
structure InsertAppointment where
  customerId : Nat
  serviceId : Nat
  staffId : Nat
  date : String
  startTime : String
  endTime : String
  status : Option String
  notes : Option String
deriving DecidableEq

/-- `insertAppointmentSchema` (src/shared/schema.ts, lines 189-193):
`createInsertSchema(appointments).omit(id, businessId, createdAt)`.
Not-null columns without a default (`customerId`, `serviceId`,
`staffId`, `date`, `startTime`, `endTime`) are required; `status` has a
default and `notes` is nullable, so both are optional. -/
def insertAppointmentSchemaParse (d : AppointmentData) :
    Except String InsertAppointment :=
  match d.customerId, d.serviceId, d.staffId, d.date, d.startTime, d.endTime with
  | some cid, some sid, some stid, some date, some st, some et =>
      Except.ok { customerId := cid, serviceId := sid, staffId := stid,
                  date := date, startTime := st, endTime := et,
                  status := d.status, notes := d.notes }
  | _, _, _, _, _, _ =>
      Except.error "ValidationError: missing required appointment field"

/-- `DatabaseStorage.createAppointment` (src/server/storage.ts, lines
267-270): insert the row — no overlap or conflict check of any kind —
and return it; the `status` column default "pending" applies when the
insert supplies none. -/
def createAppointment (store : Store) (businessId : Nat) (a : InsertAppointment) :
    Store × Appointment :=
  let newAppointment : Appointment :=
    { id := store.nextAppointmentId, businessId := businessId,
      customerId := a.customerId, serviceId := a.serviceId, staffId := a.staffId,
      date := a.date, startTime := a.startTime, endTime := a.endTime,
      status := a.status.getD "pending", notes := a.notes }
  ({ store with appointments := store.appointments ++ [newAppointment],
                nextAppointmentId := store.nextAppointmentId + 1 },
   newAppointment)

/-- The find-or-create customer step of the public booking route
`POST /api/book/:businessId/appointment` (src/server/storage.ts, lines
593-606): look the customer up by contact; when absent, validate
`customerData` with `insertCustomerSchema` and insert a new row.  The
insert, when it happens, is committed immediately (there is no
transaction), so the returned store reflects it even if a later step of
the route fails. -/
def resolveCustomer (store : Store) (businessId : Nat) (d : CustomerData) :
    Store × Except String Customer :=
  match getCustomerByContact store businessId d.email d.phone with
  | some customer => (store, Except.ok customer)
  | none =>
      match insertCustomerSchemaParse d with
      | Except.ok validated =>
          let created := createCustomer store businessId validated
          (created.fst, Except.ok created.snd)
      | Except.error e => (store, Except.error e)

/-- The public booking route `POST /api/book/:businessId/appointment`
(src/server/storage.ts, lines 588-620): find-or-create the customer,
then validate `appointmentData` with `insertAppointmentSchema`, then
insert the appointment with `customerId` overridden by the resolved
customer's id.  No slot/overlap validation is performed anywhere, and
the two writes are separate awaited statements: a customer row created
in the first step persists even when the appointment step fails. -/
def bookAppointment (store : Store) (businessId : Nat)
    (customerData : CustomerData) (appointmentData : AppointmentData) :
    Store × Except String (Appointment × Customer) :=
  match resolveCustomer store businessId customerData with
  | (s1, Except.ok customer) =>
      match insertAppointmentSchemaParse appointmentData with
      | Except.ok validated =>
          let created := createAppointment s1 businessId
            { validated with customerId := customer.id }
          (created.fst, Except.ok (created.snd, customer))
      | Except.error e => (s1, Except.error e)
  | (s1, Except.error e) => (s1, Except.error e)

/-- A partial appointment update (`Partial<Appointment>`), restricted
to the updatable columns; `none` means the field is absent from the
patch and is left unchanged. -/
structure AppointmentPatch where
  customerId : Option Nat
  serviceId : Option Nat
  staffId : Option Nat
  date : Option String
  startTime : Option String
  endTime : Option String
  status : Option String
  notes : Option (Option String)
deriving DecidableEq

/-- Apply a patch to a row: each supplied field replaces the stored
one, as `db.update(appointments).set(appointment)` does. -/
def applyPatch (p : AppointmentPatch) (a : Appointment) : Appointment :=
  { a with customerId := p.customerId.getD a.customerId,
           serviceId := p.serviceId.getD a.serviceId,
           staffId := p.staffId.getD a.staffId,
           date := p.date.getD a.date,
           startTime := p.startTime.getD a.startTime,
           endTime := p.endTime.getD a.endTime,
           status := p.status.getD a.status,
           notes := p.notes.getD a.notes }

/-- `DatabaseStorage.updateAppointment` (src/server/storage.ts, lines
272-279): unconditionally set the supplied fields on the row with the
given id and return the updated row (or `undefined` when no row
matches).  No status state machine is consulted. -/
def updateAppointment (store : Store) (id : Nat) (p : AppointmentPatch) :
    Store × Option Appointment :=
  ({ store with appointments :=
       store.appointments.map (fun a => if a.id == id then applyPatch p a else a) },
   (store.appointments.find? (fun a => a.id == id)).map (applyPatch p))

/-- JavaScript `String.prototype.split` with a one-character
separator, on an exploded string. -/
def splitChar (sep : Char) : List Char → List (List Char)
  | [] => [[]]
  | c :: cs =>
      match splitChar sep cs with
      | x :: xs => if c == sep then [] :: x :: xs else (c :: x) :: xs
      | [] => if c == sep then [[], []] else [[c]]

/-- JavaScript `Number(...)` on a string of decimal digits,
accumulator form; a non-digit character means NaN, modelled `none`. -/
def parseDigits : List Char → Nat → Option Nat
  | [], acc => some acc
  | c :: cs, acc =>
      if c.isDigit then parseDigits cs (acc * 10 + (c.toNat - 48)) else none

/-- JavaScript `Number(s)` for the strings the booking flow produces
(`Number("") = 0`, digit strings parse as decimal, anything else is
NaN, modelled `none`). -/
def jsNumber (s : String) : Option Nat :=
  parseDigits s.toList 0

/-- `n.toString().padStart(2, "0")` for a natural number. -/
def pad2 (n : Nat) : String :=
  if n < 10 then "0" ++ toString n else toString n

/-- `calculateEndTime` (src/unnamed/part_001, lines 115-122): split the
start time on ":", convert both components with `Number`, add the
duration to the total start minutes, and format the quotient and
remainder by 60 as a zero-padded "HH:MM" string.  The same computation
appears inline in the booking mutations of
src/client/src/pages/book.tsx and src/client/src/pages/dashboard.tsx. -/
def calculateEndTime (startTime : String) (duration : Nat) : Option String :=
  match (splitChar ':' startTime.toList).map (fun l => String.mk l) with
  | hs :: ms :: _ =>
      match jsNumber hs, jsNumber ms with
      | some hours, some minutes =>
          let startMinutes := hours * 60 + minutes
          let endMinutes := startMinutes + duration
          let endHours := endMinutes / 60
          let endMins := endMinutes % 60
          some (pad2 endHours ++ ":" ++ pad2 endMins)
      | _, _ => none
  | _ => none

/-- JavaScript `x || dflt` for an optional number
(`selectedService?.duration || 60`): `undefined` and `0` are falsy. -/
def jsOrNum (o : Option Nat) (dflt : Nat) : Nat :=
  match o with
  | some n => if n == 0 then dflt else n
  | none => none.getD dflt

/-- The `appointmentData` payload built by
`createBookingMutation.mutationFn` of the public booking page
src/client/src/pages/book.tsx (lines 75-90): end time from the inline
minute arithmetic, `status: "confirmed"`. -/
def bookTsxAppointmentData (serviceId staffId : Nat) (date time : String)
    (serviceDuration : Option Nat) : AppointmentData :=
  { customerId := none, serviceId := some serviceId, staffId := some staffId,
    date := some date, startTime := some time,
    endTime := calculateEndTime time (jsOrNum serviceDuration 60),
    status := some "confirmed", notes := none }

/-- The `appointmentData` payload built by
`createBookingMutation.mutationFn` of the public booking page
src/unnamed/part_001 (lines 72-98): end time from `calculateEndTime`,
`status: "pending"`. -/
def publicBookingAppointmentData (serviceId staffId : Nat) (date time : String)
    (serviceDuration : Option Nat) (notes : Option String) : AppointmentData :=
  { customerId := none, serviceId := some serviceId, staffId := some staffId,
    date := some date, startTime := some time,
    endTime := calculateEndTime time (jsOrNum serviceDuration 60),
    status := some "pending", notes := notes }

/-- The `appointmentData` payload built by
`createAppointmentMutation.mutationFn` of the staff dashboard
src/client/src/pages/dashboard.tsx (lines 159-181): end time from the
inline minute arithmetic, `status: "confirmed"`. -/
def dashboardAppointmentData (serviceId staffId : Nat) (date time : String)
    (serviceDuration : Option Nat) : AppointmentData :=
  { customerId := none, serviceId := some serviceId, staffId := some staffId,
    date := some date, startTime := some time,
    endTime := calculateEndTime time (jsOrNum serviceDuration 60),
    status := some "confirmed", notes := none }

/-- Minutes since midnight of an "HH:MM" string, by the same
split-and-Number reading the client code uses. -/
def timeMinutes (s : String) : Option Nat :=
  match (splitChar ':' s.toList).map (fun l => String.mk l) with
  | hs :: ms :: _ =>
      match jsNumber hs, jsNumber ms with
      | some hours, some minutes => some (hours * 60 + minutes)
      | _, _ => none
  | _ => none

/-- Half-open interval overlap of two appointments for the same staff
member on the same date, as the specification's Slot Validator defines
it: [a.start, a.end) and [b.start, b.end) overlap iff
a.start < b.end and b.start < a.end. -/
def appointmentsOverlap (a b : Appointment) : Bool :=
  a.staffId == b.staffId && a.date == b.date &&
    match timeMinutes a.startTime, timeMinutes a.endTime,
          timeMinutes b.startTime, timeMinutes b.endTime with
    | some as_, some ae, some bs, some be => decide (as_ < be) && decide (bs < ae)
    | _, _, _, _ => false

/-- Modelled from the spec: the Customer Resolver algorithm exactly as
§4.1 and claim C5 word it — an existing customer of the business with
exactly matching email is returned first; if no email match and a phone
is provided, an existing customer with exactly matching phone is
returned; only if neither matches is a new row created (with the
supplied fields; the resolver contract requires a name to be present). -/
def resolveCustomerSpec (store : Store) (businessId : Nat) (d : CustomerData) :
    Store × Except String Customer :=
  match (if truthy d.email then
           store.customers.find? (fun c => c.businessId == businessId && c.email == d.email)
         else none) with
  | some c => (store, Except.ok c)
  | none =>
      match (if truthy d.phone then
               store.customers.find? (fun c => c.businessId == businessId && c.phone == d.phone)
             else none) with
      | some c => (store, Except.ok c)
      | none =>
          match d.name with
          | some n =>
              let created := createCustomer store businessId
                { name := n, email := d.email, phone := d.phone, notes := d.notes }
              (created.fst, Except.ok created.snd)
          | none => (store, Except.error "ValidationError: name is required")

/-- `Except.isOk` for the result type used here. -/
def exceptIsOk {e a : Type} : Except e a → Bool
  | Except.ok _ => true
  | Except.error _ => false

deriving instance DecidableEq for Except

/-! ### Concrete fixtures used by witnesses and counterexamples -/

/-- An existing customer of business 1. -/
def bobCustomer : Customer :=
  { id := 1, businessId := 1, name := "Bob", email := some "bob@x.io",
    phone := none, notes := none }

/-- An existing confirmed appointment for staff 1 on 2024-01-10,
10:00-10:30. -/
def tenOClock : Appointment :=
  { id := 1, businessId := 1, customerId := 1, serviceId := 1, staffId := 1,
    date := "2024-01-10", startTime := "10:00", endTime := "10:30",
    status := "confirmed", notes := none }

/-- A store holding `bobCustomer` and `tenOClock`. -/
def storeWithTenOClock : Store :=
  { customers := [bobCustomer], appointments := [tenOClock],
    nextCustomerId := 2, nextAppointmentId := 2 }

/-- Bob's `customerData` payload (matches `bobCustomer` by email). -/
def bobRequest : CustomerData :=
  { name := some "Bob", email := some "bob@x.io", phone := none, notes := none }

/-- A well-formed booking payload for staff 1 on 2024-01-10,
10:15-10:45: it overlaps `tenOClock` under half-open semantics. -/
def overlappingRequest : AppointmentData :=
  { customerId := some 1, serviceId := some 1, staffId := some 1,
    date := some "2024-01-10", startTime := some "10:15",
    endTime := some "10:45", status := some "pending", notes := none }

/-- A well-formed back-to-back booking payload for staff 1 on
2024-01-10, 10:30-11:00. -/
def backToBackRequest : AppointmentData :=
  { customerId := some 1, serviceId := some 1, staffId := some 1,
    date := some "2024-01-10", startTime := some "10:30",
    endTime := some "11:00", status := some "pending", notes := none }

/-- The appointment row the route inserts for `overlappingRequest`. -/
def overlappingInserted : Appointment :=
  { id := 2, businessId := 1, customerId := 1, serviceId := 1, staffId := 1,
    date := "2024-01-10", startTime := "10:15", endTime := "10:45",
    status := "pending", notes := none }

/-- A `customerData` payload for a customer unknown to the store. -/
def ninaRequest : CustomerData :=
  { name := some "Nina", email := some "nina@x.io", phone := none, notes := none }

/-- The customer row the route inserts for `ninaRequest` against
`storeWithTenOClock`. -/
def ninaInserted : Customer :=
  { id := 2, businessId := 1, name := "Nina", email := some "nina@x.io",
    phone := none, notes := none }

/-- A malformed booking payload: `startTime` is missing, so
`insertAppointmentSchema.parse` rejects it. -/
def missingStartRequest : AppointmentData :=
  { customerId := some 1, serviceId := some 1, staffId := some 1,
    date := some "2024-01-10", startTime := none,
    endTime := some "10:45", status := some "pending", notes := none }

/-- A completed appointment for staff 1. -/
def completedAppointment : Appointment :=
  { id := 1, businessId := 1, customerId := 1, serviceId := 1, staffId := 1,
    date := "2024-01-10", startTime := "10:00", endTime := "10:30",
    status := "completed", notes := none }

/-- A store holding `completedAppointment`. -/
def storeWithCompleted : Store :=
  { customers := [bobCustomer], appointments := [completedAppointment],
    nextCustomerId := 2, nextAppointmentId := 2 }

/-- A patch setting only `status` to "pending". -/
def pendingPatch : AppointmentPatch :=
  { customerId := none, serviceId := none, staffId := none, date := none,
    startTime := none, endTime := none, status := some "pending", notes := none }

/-- An empty store. -/
def emptyStore : Store :=
  { customers := [], appointments := [], nextCustomerId := 1, nextAppointmentId := 1 }

/-- A customer with a phone number but no email, known to business 1. -/
def philCustomer : Customer :=
  { id := 1, businessId := 1, name := "Phil", email := none,
    phone := some "555-1234", notes := none }

/-- A store holding only `philCustomer`. -/
def storeWithPhil : Store :=
  { customers := [philCustomer], appointments := [],
    nextCustomerId := 2, nextAppointmentId := 1 }

/-- A booking `customerData` supplying only a phone, matching
`philCustomer` exactly. -/
def philRequest : CustomerData :=
  { name := some "Phil", email := none, phone := some "555-1234", notes := none }

/-- A `customerData` payload whose name is the empty string. -/
def emptyNameRequest : CustomerData :=
  { name := some "", email := none, phone := some "555-0000", notes := none }

/-- A second empty-name payload (different phone), used by the amended
claim's witness. -/
def emptyNameRequest2 : CustomerData :=
  { name := some "", email := none, phone := some "555-0001", notes := none }

/-- A fresh-customer payload with an email, used by the idempotence
witness. -/
def aliceRequest : CustomerData :=
  { name := some "Alice", email := some "alice@x.io", phone := none, notes := none }

/-- A store with a customer having both contact fields set, used to
show the contact lookup returns nothing when no contact is supplied. -/
def storeWithZed : Store :=
  { customers := [{ id := 1, businessId := 1, name := "Zed",
                    email := some "zed@x.io", phone := some "777-0000", notes := none }],
    appointments := [], nextCustomerId := 2, nextAppointmentId := 1 }

/-! ### Helper lemmas -/

/-- Helper: evaluating `calculateEndTime` on a start string that splits
into two numeric components. -/
theorem calculateEndTime_eval (t hs ms : String) (h m d : Nat)
    (hsplit : (splitChar ':' t.toList).map (fun l => String.mk l) = [hs, ms])
    (hh : jsNumber hs = some h) (hm : jsNumber ms = some m) :
    calculateEndTime t d =
      some (pad2 ((h * 60 + m + d) / 60) ++ ":" ++ pad2 ((h * 60 + m + d) % 60)) := by
  unfold calculateEndTime
  rw [hsplit]
  simp [hh, hm]

/-! ### Claim theorems -/

/-- C1: the public booking route performs no overlap check: with an
existing confirmed appointment for staff 1 on 2024-01-10 from 10:00 to
10:30, a booking for the same staff and date from 10:15 to 10:45 — an
overlapping window under half-open semantics — is not rejected with any
conflict error; it succeeds and a second, overlapping appointment row
is inserted (and the back-to-back 10:30-11:00 booking succeeds as
well).  This contradicts the claim that the overlapping attempt is
rejected with ConflictError. -/
theorem publicBooking_inserts_overlapping_appointment :
    bookAppointment storeWithTenOClock 1 bobRequest overlappingRequest =
      ({ customers := [bobCustomer], appointments := [tenOClock, overlappingInserted],
         nextCustomerId := 2, nextAppointmentId := 3 },
       Except.ok (overlappingInserted, bobCustomer)) ∧
    appointmentsOverlap tenOClock overlappingInserted = true ∧
    exceptIsOk (bookAppointment storeWithTenOClock 1 bobRequest backToBackRequest).snd = true := by
  decide

/-- C2: the customer find-or-create step and the appointment insert of
the public booking route are not atomic: a booking request for a new
customer whose appointment payload is invalid (missing startTime)
returns a validation error, yet the newly created customer row persists
in the store while no appointment row was added — an orphaned customer,
contradicting the both-or-neither claim. -/
theorem publicBooking_orphans_customer_row :
    bookAppointment storeWithTenOClock 1 ninaRequest missingStartRequest =
      ({ customers := [bobCustomer, ninaInserted], appointments := [tenOClock],
         nextCustomerId := 3, nextAppointmentId := 2 },
       Except.error "ValidationError: missing required appointment field") := by
  decide

/-- C3: for every start time that splits into numeric hour and minute
components, the computed end time is the start advanced by exactly the
duration in minutes, rendered as zero-padded "HH:MM": the hour
component is the quotient and the minute component the remainder of the
total minutes by 60. -/
theorem calculateEndTime_adds_service_duration (t hs ms : String) (h m d : Nat)
    (hsplit : (splitChar ':' t.toList).map (fun l => String.mk l) = [hs, ms])
    (hh : jsNumber hs = some h) (hm : jsNumber ms = some m) :
    calculateEndTime t d =
      some (pad2 ((h * 60 + m + d) / 60) ++ ":" ++ pad2 ((h * 60 + m + d) % 60)) :=
  calculateEndTime_eval t hs ms h m d hsplit hh hm

/-- C3 witness: the claim's scenario — duration 45 starting at "09:10"
yields "09:55". -/
theorem calculateEndTime_adds_service_duration_witness :
    calculateEndTime "09:10" 45 = some "09:55" :=
  (calculateEndTime_adds_service_duration "09:10" "09" "10" 9 10 45
    (by decide) (by decide) (by decide)).trans (by decide)

/-- C4: `updateAppointment` consults no status state machine: updating
a completed appointment with status "pending" succeeds, stores the
regressed status and returns the updated row, instead of failing with a
state-transition error and leaving the stored status unchanged as the
claim requires. -/
theorem updateAppointment_allows_completed_to_pending :
    updateAppointment storeWithCompleted 1 pendingPatch =
      ({ customers := [bobCustomer],
         appointments := [{ completedAppointment with status := "pending" }],
         nextCustomerId := 2, nextAppointmentId := 2 },
       some { completedAppointment with status := "pending" }) := by
  decide

/-- C5: for every store, business and customer input carrying a name,
the route's find-or-create customer step equals the resolution
algorithm exactly as the claim words it (email match first, then phone
match if a phone is provided, create only if neither matches). -/
theorem resolveCustomer_follows_spec_algorithm (store : Store) (businessId : Nat)
    (d : CustomerData) (n : String) (hn : d.name = some n) :
    resolveCustomer store businessId d = resolveCustomerSpec store businessId d := by
  unfold resolveCustomer resolveCustomerSpec getCustomerByContact
  cases hE : (if truthy d.email then
      store.customers.find? (fun c => c.businessId == businessId && c.email == d.email)
    else none) with
  | some c => simp
  | none =>
    cases hP : (if truthy d.phone then
        store.customers.find? (fun c => c.businessId == businessId && c.phone == d.phone)
      else none) with
    | some c => simp
    | none => simp [insertCustomerSchemaParse, hn]

/-- C5 witness: the claim's scenario — a booking supplying only a phone
for a business whose store already holds a customer with exactly that
phone resolves to the existing customer and creates no new row (the
store is returned unchanged). -/
theorem resolveCustomer_follows_spec_algorithm_witness :
    resolveCustomer storeWithPhil 1 philRequest = (storeWithPhil, Except.ok philCustomer) :=
  (resolveCustomer_follows_spec_algorithm storeWithPhil 1 philRequest "Phil" rfl).trans
    (by decide)

/-- C6: customer resolution is idempotent for inputs carrying a name
and a nonempty email: the first run succeeds (possibly creating a
customer row), and a second run against the resulting store returns
exactly the same customer and the same store — no additional row is
inserted. -/
theorem resolveCustomer_idempotent_on_email (store : Store) (businessId : Nat)
    (d : CustomerData) (n e : String) (hn : d.name = some n) (he : d.email = some e)
    (hne : (e == "") = false) :
    exceptIsOk (resolveCustomer store businessId d).snd = true ∧
    resolveCustomer (resolveCustomer store businessId d).fst businessId d =
      ((resolveCustomer store businessId d).fst,
       (resolveCustomer store businessId d).snd) := by
  have htruthy : truthy d.email = true := by
    rw [he]; simp [truthy, hne]
  cases hF : store.customers.find?
      (fun c => c.businessId == businessId && c.email == d.email) with
  | some c =>
      have hgc : getCustomerByContact store businessId d.email d.phone = some c := by
        simp [getCustomerByContact, htruthy, hF]
      simp [resolveCustomer, hgc, exceptIsOk]
  | none =>
      cases hP : (if truthy d.phone then
          store.customers.find? (fun c => c.businessId == businessId && c.phone == d.phone)
        else none) with
      | some c =>
          have hgc : getCustomerByContact store businessId d.email d.phone = some c := by
            simp [getCustomerByContact, htruthy, hF, hP]
          simp [resolveCustomer, hgc, exceptIsOk]
      | none =>
          have hgc : getCustomerByContact store businessId d.email d.phone = none := by
            simp [getCustomerByContact, htruthy, hF, hP]
          have hrun1 : resolveCustomer store businessId d =
              ({ store with
                 customers := store.customers ++
                   [{ id := store.nextCustomerId, businessId := businessId, name := n,
                      email := d.email, phone := d.phone, notes := d.notes }],
                 nextCustomerId := store.nextCustomerId + 1 },
               Except.ok { id := store.nextCustomerId, businessId := businessId, name := n,
                           email := d.email, phone := d.phone, notes := d.notes }) := by
            simp [resolveCustomer, hgc, insertCustomerSchemaParse, hn, createCustomer]
          have hgc2 : getCustomerByContact
              ({ store with
                 customers := store.customers ++
                   [{ id := store.nextCustomerId, businessId := businessId, name := n,
                      email := d.email, phone := d.phone, notes := d.notes }],
                 nextCustomerId := store.nextCustomerId + 1 } : Store) businessId d.email d.phone =
              some { id := store.nextCustomerId, businessId := businessId, name := n,
                     email := d.email, phone := d.phone, notes := d.notes } := by
            simp [getCustomerByContact, htruthy, List.find?_append, hF]
          rw [hrun1]
          simp [exceptIsOk, resolveCustomer, hgc2]

/-- C6 witness: resolving Alice (fresh email) against the empty store
succeeds, and a second resolution against the resulting store returns
the same customer and leaves the store unchanged. -/
theorem resolveCustomer_idempotent_on_email_witness :
    exceptIsOk (resolveCustomer emptyStore 1 aliceRequest).snd = true ∧
    resolveCustomer (resolveCustomer emptyStore 1 aliceRequest).fst 1 aliceRequest =
      ((resolveCustomer emptyStore 1 aliceRequest).fst,
       (resolveCustomer emptyStore 1 aliceRequest).snd) :=
  resolveCustomer_idempotent_on_email emptyStore 1 aliceRequest "Alice" "alice@x.io"
    rfl rfl (by decide)

/-- C7 counterexample: the claim that an empty-string name fails with
ValidationError and creates no Customer row is false at a concrete
input: `insertCustomerSchema` derives `name` as a plain string with no
minimum length, so resolving a customer whose name is "" against the
empty store succeeds and inserts a row with empty name. -/
theorem emptyName_accepted_counterexample :
    resolveCustomer emptyStore 1 emptyNameRequest =
      ({ customers := [{ id := 1, businessId := 1, name := "", email := none,
                         phone := some "555-0000", notes := none }],
         appointments := [], nextCustomerId := 2, nextAppointmentId := 1 },
       Except.ok { id := 1, businessId := 1, name := "", email := none,
                   phone := some "555-0000", notes := none }) := by
  decide

/-- C7 (amended): for every customer input whose name is the empty
string and which matches no existing customer by contact, customer
resolution succeeds — no validation error is raised — and a Customer
row with empty name is created. -/
theorem resolveCustomer_creates_row_for_empty_name (store : Store) (businessId : Nat)
    (d : CustomerData) (hname : d.name = some "")
    (hnomatch : getCustomerByContact store businessId d.email d.phone = none) :
    resolveCustomer store businessId d =
      ({ store with
         customers := store.customers ++
           [{ id := store.nextCustomerId, businessId := businessId, name := "",
              email := d.email, phone := d.phone, notes := d.notes }],
         nextCustomerId := store.nextCustomerId + 1 },
       Except.ok { id := store.nextCustomerId, businessId := businessId, name := "",
                   email := d.email, phone := d.phone, notes := d.notes }) := by
  simp [resolveCustomer, hnomatch, insertCustomerSchemaParse, hname, createCustomer]

/-- C7 witness: a concrete empty-name input against the empty store is
accepted and a row with empty name is inserted. -/
theorem resolveCustomer_creates_row_for_empty_name_witness :
    resolveCustomer emptyStore 1 emptyNameRequest2 =
      ({ customers := [{ id := 1, businessId := 1, name := "", email := none,
                         phone := some "555-0001", notes := none }],
         appointments := [], nextCustomerId := 2, nextAppointmentId := 1 },
       Except.ok { id := 1, businessId := 1, name := "", email := none,
                   phone := some "555-0001", notes := none }) :=
  (resolveCustomer_creates_row_for_empty_name emptyStore 1 emptyNameRequest2
    rfl (by decide)).trans (by decide)

/-- C8 counterexample: the public self-service booking page
src/client/src/pages/book.tsx builds its appointment payload with
initial status "confirmed", not "pending", so the claim that every
public-entry appointment is inserted with status pending is false at a
concrete booking. -/
theorem bookTsx_public_status_confirmed_counterexample :
    (bookTsxAppointmentData 1 1 "2024-01-10" "10:00" (some 30)).status = some "confirmed" ∧
    (bookTsxAppointmentData 1 1 "2024-01-10" "10:00" (some 30)).status ≠ some "pending" := by
  decide

/-- C8 (amended): the public booking page of src/unnamed/part_001 sends
initial status "pending", while the public booking page
src/client/src/pages/book.tsx and the staff dashboard both send initial
status "confirmed", for every booking form input. -/
theorem initial_status_by_entry_point (serviceId staffId : Nat) (date time : String)
    (dur : Option Nat) (notes : Option String) :
    (publicBookingAppointmentData serviceId staffId date time dur notes).status =
        some "pending" ∧
    (bookTsxAppointmentData serviceId staffId date time dur).status = some "confirmed" ∧
    (dashboardAppointmentData serviceId staffId date time dur).status = some "confirmed" :=
  ⟨rfl, rfl, rfl⟩

/-- C9: for every store and business, calling the customer contact
lookup with neither an email nor a phone supplied (both absent or
empty, i.e. falsy) returns `undefined`: no customer is ever matched —
and the lookup, being a pure read, performs no insertion. -/
theorem getCustomerByContact_no_contact_returns_none (store : Store) (businessId : Nat)
    (email phone : Option String) (he : truthy email = false) (hp : truthy phone = false) :
    getCustomerByContact store businessId email phone = none := by
  simp [getCustomerByContact, he, hp]

/-- C9 witness: against a store that does hold a customer with both
contact fields set, the lookup with no email and no phone returns
nothing. -/
theorem getCustomerByContact_no_contact_returns_none_witness :
    getCustomerByContact storeWithZed 1 none none = none :=
  getCustomerByContact_no_contact_returns_none storeWithZed 1 none none rfl rfl

/-- C10: the end-time computation performs no 24-hour wrap-around: when
the start minutes plus the duration reach or exceed 1440, the result is
still the zero-padded quotient/remainder rendering, whose hour
component is 24 or greater — not a valid same-day wall-clock time. -/
theorem calculateEndTime_no_day_wraparound (t hs ms : String) (h m d : Nat)
    (hsplit : (splitChar ':' t.toList).map (fun l => String.mk l) = [hs, ms])
    (hh : jsNumber hs = some h) (hm : jsNumber ms = some m)
    (hday : 1440 ≤ h * 60 + m + d) :
    calculateEndTime t d =
      some (pad2 ((h * 60 + m + d) / 60) ++ ":" ++ pad2 ((h * 60 + m + d) % 60)) ∧
    24 ≤ (h * 60 + m + d) / 60 :=
  ⟨calculateEndTime_eval t hs ms h m d hsplit hh hm, by omega⟩

/-- C10 witness: start "23:30" with duration 60 yields "24:30", whose
hour component 24 is not a valid same-day hour. -/
theorem calculateEndTime_no_day_wraparound_witness :
    calculateEndTime "23:30" 60 = some "24:30" ∧ 24 ≤ (23 * 60 + 30 + 60) / 60 := by
  have h := calculateEndTime_no_day_wraparound "23:30" "23" "30" 23 30 60
    (by decide) (by decide) (by decide) (by decide)
  exact ⟨h.1.trans (by decide), h.2⟩
